import Mathlib

/-!
Shallow embedding of the turn-processing pipeline of the pharmalist chatbot
backend: the agent nodes (`nodes.py`), the compiled pipeline graph
(`state_machine.py`), the per-turn state record (`state.py`), and the HTTP
route that drives one turn per request (`routes/chatbot.py`).

Modelling conventions:
* a database row is an association list from field names to string values;
  Python truthiness of a field value is modelled as "the string is nonempty";
* the two external collaborators (the completion engine and the data store)
  are passed to the nodes that consult them as the outcome of the call, an
  `Except String _` whose `error` case models a raised exception;
* Python dict/list state is threaded functionally; each node returns the
  updated state (or an error, when the source lets an exception escape).
-/

/-- Python substring test `pat in s`, on lists of characters. -/
def containsSub (pat : List Char) : List Char → Bool
  | [] => pat.isEmpty
  | c :: t => pat.isPrefixOf (c :: t) || containsSub pat t

/-- Python substring test `pat in s` on strings. -/
def strContains (s pat : String) : Bool := containsSub pat.data s.data

/-- Python `str.lower()` (ASCII), implemented by structural recursion so that
concrete inputs evaluate inside the kernel. -/
def pyLower (s : String) : String := String.mk (s.data.map Char.toLower)

/-- Python `str.upper()` (ASCII). -/
def pyUpper (s : String) : String := String.mk (s.data.map Char.toUpper)

/-- The whitespace characters removed by Python `str.strip()` (ASCII). -/
def isPySpace (c : Char) : Bool :=
  c == ' ' || c == '\t' || c == '\n' || c == '\r' || c == '\x0c' || c == '\x0b'

/-- Python `str.strip()`: drop leading and trailing whitespace. -/
def pyStrip (s : String) : String :=
  String.mk (((s.data.dropWhile isPySpace).reverse.dropWhile isPySpace).reverse)

/-- Python `s.replace('_', ' ')` (single-character replacement). -/
def pyReplaceUnderscore (s : String) : String :=
  String.mk (s.data.map (fun c => if c == '_' then ' ' else c))

/-- Python `str.title()` restricted to ASCII letters: an alphabetic character
is upper-cased when the preceding character is not alphabetic and lower-cased
otherwise. -/
def pyTitleGo : Bool → List Char → List Char
  | _, [] => []
  | prevAlpha, c :: t =>
    if c.isAlpha then
      (if prevAlpha then c.toLower else c.toUpper) :: pyTitleGo true t
    else c :: pyTitleGo false t

/-- Python `s.replace('_',' ').title()` is `pyTitle (s.replace "_" " ")`. -/
def pyTitle (s : String) : String := String.mk (pyTitleGo false s.data)

/-- Python slice `l[-n:]`. -/
def lastN (n : Nat) (l : List α) : List α := l.drop (l.length - n)

/-- A data-store row: ordered field/value pairs (`RealDictCursor` rows). -/
abbrev Row := List (String × String)

/-- Python `list(row.keys())`. -/
def rowKeys (r : Row) : List String := r.map Prod.fst

/-- Python `row.get(field)`: a missing field and an empty value are both
falsy, so both are modelled by the empty string. -/
def rowGet (r : Row) (field : String) : String :=
  ((r.find? (fun p => p.fst == field)).map Prod.snd).getD ""

/-- One message of the per-session conversation transcript (`state.Message`). -/
structure Message where
  role : String
  content : String
  query_type : Option String
deriving Repr, DecidableEq

/-- One record of `session_memory["query_history"]` (`update_memory`). -/
structure QueryRecord where
  turn : Nat
  query : String
  sql : Option String
  row_count : Nat
  timestamp : String
  response_summary : String
deriving Repr, DecidableEq

/-- One entry of `session_memory["result_cache"]` (`update_memory`). -/
structure CachedResult where
  sql : String
  rows : List Row
  full_count : Nat
deriving Repr, DecidableEq

/-- The `session_memory` dict.  `entity_references` is a Python dict whose
values are always `True`, so only its key sequence is modelled; `last_table`
is absent from the fresh dict and only assigned later, hence an `Option`. -/
structure SessionMemory where
  conversation_context : String
  query_history : List QueryRecord
  result_cache : List (String × CachedResult)
  entity_references : List String
  last_topic : Option String
  turn_count : Nat
  last_table : Option String
deriving Repr, DecidableEq

/-- The `session_context` dict built by the route / the router node. -/
structure SessionContext where
  current_table : Option String
  last_query_type : Option String
  active_request_id : Option Int
  last_results_summary : String
  mentioned_tables : List String
  last_sql_query : Option String
  last_result_count : Nat
deriving Repr, DecidableEq

/-- The `AgentState` TypedDict (`state.py`), restricted to the keys the
pipeline nodes read or write.  Keys that may be absent are `Option`s. -/
structure AgentState where
  user_query : String
  request_id : Option Int
  query_type : Option String
  generated_sql : Option String
  rows : List Row
  response : Option String
  conversation_history : List Message
  session_context : Option SessionContext
  session_memory : Option SessionMemory
  needs_sql : Bool
  is_clarification : Bool
deriving Repr, DecidableEq

/-- The fresh memory dict created by `initialize_memory`. -/
def fresh_memory : SessionMemory :=
  { conversation_context := ""
    query_history := []
    result_cache := []
    entity_references := []
    last_topic := none
    turn_count := 0
    last_table := none }

/-- `initialize_memory`: create the memory dict if it is absent. -/
def initialize_memory (st : AgentState) : AgentState :=
  if st.session_memory.isNone then { st with session_memory := some fresh_memory } else st

/-- Table vocabulary scanned by `extract_entities`. -/
def entity_tables : List String := ["list_versions", "target_list_entries", "hcp", "version"]

/-- `extract_entities`: table names found in the query text plus `name_`-keys
from string-valued `name` fields of the first 5 rows.  (In this embedding all
row values are strings, so the `isinstance(value, str)` guard always holds.) -/
def extract_entities (query : String) (rows : List Row) : List String :=
  ((entity_tables.filter (fun t => strContains (pyLower query) t)).map (fun t => "table_" ++ t))
    ++ ((rows.take 5).foldl (fun acc r =>
          acc ++ (r.filter (fun p => strContains (pyLower p.fst) "name")).map
            (fun p => "name_" ++ p.snd)) [])

/-- Python dict-update semantics on the modelled key sequence: an existing key
is left in place, a new key is appended. -/
def insertKey (ks : List String) (k : String) : List String :=
  if ks.contains k then ks else ks ++ [k]

/-- One line of the rolling summary built by `summarize_conversation_context`. -/
def summary_line (r : QueryRecord) : String :=
  "Turn " ++ toString r.turn ++ ": Asked about '" ++ r.query.take 60 ++ "...' → "
    ++ toString r.row_count ++ " results"

/-- `summarize_conversation_context`: newline-joined summary of the last 5
history records. -/
def summarize_conversation_context (query_history : List QueryRecord) : String :=
  if query_history.isEmpty then "No previous conversation."
  else String.intercalate "\n" ((lastN 5 query_history).map summary_line)

/-- Character class `\w` of the Python regex `FROM\s+(\w+)`. -/
def isWordChar (c : Char) : Bool := c.isAlphanum || c == '_'

/-- Character class `\s` of the Python regex (ASCII whitespace). -/
def isRegexSpace (c : Char) : Bool :=
  c == ' ' || c == '\t' || c == '\n' || c == '\r' || c == '\x0c' || c == '\x0b'

/-- Try `re.search(r'FROM\s+(\w+)', ..., re.IGNORECASE)` anchored at the head
of the character list; return the captured word on success. -/
def matchFromTableAt : List Char → Option String
  | f :: r :: o :: m :: rest =>
    if f.toLower == 'f' && r.toLower == 'r' && o.toLower == 'o' && m.toLower == 'm' then
      let sp := rest.takeWhile isRegexSpace
      let w := (rest.dropWhile isRegexSpace).takeWhile isWordChar
      if !sp.isEmpty && !w.isEmpty then some (String.mk w) else none
    else none
  | _ => none

/-- `re.search` scans left to right for the first position where the pattern
matches.  (`\s` and `\w` are disjoint, so no backtracking can rescue a failed
anchor; advancing one character is exactly Python's behaviour.) -/
def searchFromTable : List Char → Option String
  | [] => none
  | c :: t =>
    match matchFromTableAt (c :: t) with
    | some w => some w
    | none => searchFromTable t

/-- Python truthiness of the optional `generated_sql` string. -/
def sqlTruthy (o : Option String) : Bool :=
  match o with
  | some s => s != ""
  | none => false

/-- Table-name extraction in `update_memory`: guarded by
`'FROM' in sql.upper()`, then the regex search. -/
def extracted_table (sql : String) : Option String :=
  if strContains (pyUpper sql) "FROM" then searchFromTable sql.data else none

/-- Python dict assignment `cache[k] = v`: replace in place or append. -/
def cacheInsert (c : List (String × CachedResult)) (k : String) (v : CachedResult) :
    List (String × CachedResult) :=
  if (c.find? (fun p => p.fst == k)).isSome then
    c.map (fun p => if p.fst == k then (k, v) else p)
  else c ++ [(k, v)]

/-- The history record appended by `update_memory` for the current turn. -/
def new_turn_record (m : SessionMemory) (query : String) (sql : Option String)
    (rows : List Row) (response : String) (now : String) : QueryRecord :=
  { turn := m.turn_count + 1
    query := query
    sql := sql
    row_count := rows.length
    timestamp := now
    response_summary := response.take 200 }

/-- History trimming in `update_memory`: `if len(h) > 10: h = h[-10:]`. -/
def trim_history (h : List QueryRecord) : List QueryRecord :=
  if h.length > 10 then lastN 10 h else h

/-- The pure memory transformation performed by `update_memory`, step by step:
increment the turn counter, append and trim the history record, cache results
when a query ran and returned rows, extract the queried table, fold in the
extracted entities, update the last topic, and regenerate the rolling summary
every third turn. -/
def memory_after_update (m : SessionMemory) (query : String) (sql : Option String)
    (rows : List Row) (response : String) (query_type : Option String) (now : String) :
    SessionMemory :=
  let turn_count := m.turn_count + 1
  let record := new_turn_record m query sql rows response now
  let history := trim_history (m.query_history ++ [record])
  let doCache := sqlTruthy sql && !rows.isEmpty
  let result_cache :=
    if doCache then
      cacheInsert m.result_cache ("turn_" ++ toString turn_count)
        { sql := sql.getD "", rows := rows.take 50, full_count := rows.length }
    else m.result_cache
  let table_match := if doCache then extracted_table (sql.getD "") else none
  let last_table := match table_match with | some t => some t | none => m.last_table
  let entity_references := (extract_entities query rows).foldl insertKey m.entity_references
  let last_topic :=
    match query_type with
    | some t => if t != "" then some t else m.last_topic
    | none => m.last_topic
  let conversation_context :=
    if turn_count % 3 == 0 then summarize_conversation_context history
    else m.conversation_context
  { conversation_context := conversation_context
    query_history := history
    result_cache := result_cache
    entity_references := entity_references
    last_topic := last_topic
    turn_count := turn_count
    last_table := last_table }

/-- `update_memory`: ensure the memory dict exists, apply the memory
transformation, and mirror a freshly extracted table name into
`session_context.current_table`. -/
def update_memory (now : String) (st0 : AgentState) : AgentState :=
  let st := initialize_memory st0
  let m := st.session_memory.getD fresh_memory
  let m2 := memory_after_update m st.user_query st.generated_sql st.rows
      (st.response.getD "") st.query_type now
  let table_match :=
    if sqlTruthy st.generated_sql && !st.rows.isEmpty then
      extracted_table (st.generated_sql.getD "")
    else none
  let ctx :=
    match table_match with
    | some t => st.session_context.map (fun c => { c with current_table := some t })
    | none => st.session_context
  { st with session_memory := some m2, session_context := ctx }

/-- Lexical indicator set for a new query (`router_node`); computed by the
source and then ignored by the always-execute decision logic. -/
def new_query_indicators : List String :=
  ["give me", "show me", "retrieve", "fetch", "get me", "find",
   "i want", "i need", "can you get", "can you show", "list",
   "another question", "new question", "different question",
   "from table", "from the", "select", "query", "what are", "what is"]

/-- Lexical indicator set for clarifications (`router_node`); dead signal. -/
def clarification_indicators : List String :=
  ["about them", "about these", "about those", "about it", "about that",
   "the same", "those ones", "these ones", "from that", "from those",
   "tell me more", "more about", "more details", "more info",
   "what about", "how about", "why", "explain"]

/-- Lexical indicator set for references to previous results; dead signal. -/
def reference_indicators : List String :=
  ["the results", "the data", "those results", "that list",
   "the previous", "last query", "before", "earlier"]

/-- Expanded SQL keyword set (`router_node`); dead signal. -/
def sql_keywords : List String :=
  ["show", "list", "find", "search", "get", "count", "how many",
   "compare", "difference", "version", "when", "created", "modified",
   "sql", "query", "table", "data", "record", "entry", "hcp", "all",
   "retrieve", "fetch", "select", "from", "where", "entries", "what are",
   "give", "display", "who", "which", "lists", "targets", "requests",
   "revenue", "tier", "specialty", "address", "phone", "email", "city",
   "state", "zip", "npi", "prescriber", "value", "total", "sum",
   "gue", "shw", "lst", "gt"]

/-- The fixed pure-greeting phrase set of `router_node`. -/
def pure_greetings : List String :=
  ["hello", "hi", "hey", "thanks", "thank you", "bye", "good morning", "good evening"]

/-- The fixed meta-question phrase set of `router_node`. -/
def meta_questions : List String :=
  ["how do you work", "what can you do", "help me", "how does this work"]

/-- Table vocabulary scanned for `mentioned_tables` in `router_node`. -/
def router_tables : List String :=
  ["list_versions", "target_list_entries", "version", "entry", "hcp", "list"]

/-- `query.strip().lower() in pure_greetings`, where `query` is the already
lower-cased user text. -/
def is_pure_greeting (user_query : String) : Bool :=
  pure_greetings.contains (pyLower (pyStrip (pyLower user_query)))

/-- `any(m in query for m in meta_questions)` on the lower-cased user text. -/
def is_meta_question (user_query : String) : Bool :=
  meta_questions.any (fun m => strContains (pyLower user_query) m)

/-- The `session_context` dict created when the state carries none. -/
def default_session_context (request_id : Option Int) : SessionContext :=
  { current_table := none
    last_query_type := none
    active_request_id := request_id
    last_results_summary := ""
    mentioned_tables := []
    last_sql_query := none
    last_result_count := 0 }

/-- `router_node`: initialize memory and context, compute the (unused) lexical
signals, decide `needs_sql` — false exactly for pure greetings and meta
questions — and track table names mentioned in the utterance (each match is
appended to `mentioned_tables` if new and becomes `current_table`, last match
winning).  `is_clarification` is set to `False` on every path. -/
def router_node (st0 : AgentState) : AgentState :=
  let st := initialize_memory st0
  let query := pyLower st.user_query
  let memory := st.session_memory.getD fresh_memory
  let ctx := (st.session_context).getD (default_session_context st.request_id)
  let _is_new_query := new_query_indicators.any (fun i => strContains query i)
  let _is_clarification := clarification_indicators.any (fun i => strContains query i)
  let _has_reference := reference_indicators.any (fun i => strContains query i)
  let _needs_sql_keywords := sql_keywords.any (fun kw => strContains query kw)
    || memory.entity_references.any (fun e => strContains query (pyLower e))
  let needs_sql := !(is_pure_greeting st.user_query || is_meta_question st.user_query)
  let ctx := router_tables.foldl (fun c t =>
      if strContains query t then
        { c with
          mentioned_tables :=
            if c.mentioned_tables.contains t then c.mentioned_tables
            else c.mentioned_tables ++ [t]
          current_table := some t }
      else c) ctx
  { st with session_context := some ctx, needs_sql := needs_sql, is_clarification := false }

/-- `classify_query_node`: skipped entirely (category `conversation`) when the
router decided no SQL is needed; otherwise it consults the completion engine
(whose outcome for this turn is the `oracle` argument) with **no exception
handling** — an engine error escapes the node.  A successful completion text
is stripped, lower-cased and stored as the category verbatim. -/
def classify_query_node (oracle : Except String String) (st0 : AgentState) :
    Except String AgentState :=
  if !st0.needs_sql then
    Except.ok { st0 with query_type := some "conversation" }
  else
    let st := initialize_memory st0
    match oracle with
    | Except.error e => Except.error e
    | Except.ok txt =>
      let category := pyLower (pyStrip txt)
      Except.ok { st with
        query_type := some category
        session_context := st.session_context.map
          (fun c => { c with last_query_type := some category }) }

/-- `generate_sql_node`: no query when the router decided no SQL; otherwise
the completion engine's output text, stripped, becomes the generated query —
again with no exception handling around the engine call. -/
def generate_sql_node (oracle : Except String String) (st0 : AgentState) :
    Except String AgentState :=
  if !st0.needs_sql then
    Except.ok { st0 with generated_sql := none }
  else
    let st := initialize_memory st0
    match oracle with
    | Except.error e => Except.error e
    | Except.ok txt =>
      let sql := pyStrip txt
      Except.ok { st with
        generated_sql := some sql
        session_context := st.session_context.map
          (fun c => { c with last_sql_query := some sql }) }

/-- The guard of `execute_sql_node`:
`if not state.get("needs_sql") or not state.get("generated_sql")` — the query
text dispatched to the data store, or `none` when the node short-circuits.
The text undergoes no structural inspection whatsoever. -/
def dispatchedQuery (st : AgentState) : Option String :=
  if !st.needs_sql || !sqlTruthy st.generated_sql then none else st.generated_sql

/-- `execute_sql_node`: run the dispatched query against the data store
(`db` is the store's outcome for a given statement); any execution error is
caught, yielding zero rows and an error note in the session context — the
node itself never raises. -/
def execute_sql_node (db : String → Except String (List Row)) (st : AgentState) :
    AgentState :=
  match dispatchedQuery st with
  | none => { st with rows := [] }
  | some sql =>
    match db sql with
    | Except.ok rows =>
      { st with
        rows := rows
        session_context := st.session_context.map (fun c =>
          { c with
            last_results_summary := "Retrieved " ++ toString rows.length ++ " rows"
            last_result_count := rows.length }) }
    | Except.error e =>
      { st with
        rows := []
        session_context := st.session_context.map (fun c =>
          { c with last_results_summary := "Error: " ++ e }) }

/-- Priority field list of the all-rows display branch of `summarizer_node`. -/
def priority_fields_all : List String :=
  ["hcp_name", "name", "system_name", "title", "specialty",
   "contact_name", "system_id", "hcp_id", "tier", "importance"]

/-- Housekeeping fields excluded by the all-rows and direct display branches. -/
def housekeeping_all : List String := ["id", "created_at", "updated_at", "version_id"]

/-- Field-to-label table of the all-rows and direct display branches. -/
def field_labels_full : List (String × String) :=
  [("hcp_name", "Name"), ("name", "Name"), ("system_name", "System"),
   ("title", "Title"), ("specialty", "Specialty"), ("contact_name", "Contact"),
   ("system_id", "ID"), ("hcp_id", "HCP ID"), ("tier", "Tier"),
   ("importance", "Importance"), ("contact_email", "Email"), ("phone", "Phone"),
   ("address", "Address"), ("city", "City"), ("state", "State"), ("npi", "NPI"),
   ("revenue", "Revenue"), ("prescriber_type", "Type")]

/-- Priority field list of the large-dataset sample branch. -/
def priority_fields_sample : List String :=
  ["hcp_name", "name", "system_name", "title", "specialty", "contact_name",
   "system_id", "tier"]

/-- Housekeeping fields excluded by the sample branch. -/
def housekeeping_sample : List String := ["id", "created_at", "updated_at"]

/-- Field-to-label table of the sample branch. -/
def field_labels_sample : List (String × String) :=
  [("hcp_name", "Name"), ("name", "Name"), ("system_name", "System"),
   ("title", "Title"), ("specialty", "Specialty"), ("contact_name", "Contact"),
   ("system_id", "ID"), ("tier", "Tier"), ("importance", "Importance"),
   ("contact_email", "Email"), ("revenue", "Revenue")]

/-- Priority field list of the direct (other-classification) display branch. -/
def priority_fields_direct : List String :=
  ["hcp_name", "name", "system_name", "title", "specialty", "contact_name",
   "system_id", "hcp_id", "tier", "importance", "contact_email", "revenue",
   "phone", "address"]

/-- `field_labels.get(field, field.replace('_',' ').title())`. -/
def labelOf (labels : List (String × String)) (field : String) : String :=
  match labels.find? (fun p => p.fst == field) with
  | some p => p.snd
  | none => pyTitle (pyReplaceUnderscore field)

/-- Display-field selection shared by all three rendering branches: keep the
priority fields present in the first row's key set; if none match, take the
first `n` keys that are not housekeeping fields. -/
def display_fields (keys priority exclude : List String) (n : Nat) : List String :=
  let pf := priority.filter (fun f => keys.contains f)
  if pf.isEmpty then (keys.filter (fun k => !exclude.contains k)).take n else pf

/-- The labelled `"Label: value"` parts of one rendered row (fields with a
falsy value are skipped). -/
def render_row_parts (labels : List (String × String)) (fields : List String)
    (r : Row) : List String :=
  (fields.filter (fun f => rowGet r f != "")).map
    (fun f => labelOf labels f ++ ": " ++ rowGet r f)

/-- Fallback rendering of a row none of whose selected fields has a value:
all non-empty fields, comma-joined. -/
def row_fallback (labels : List (String × String)) (r : Row) : String :=
  String.intercalate ", "
    ((r.filter (fun p => p.snd != "")).map (fun p => labelOf labels p.fst ++ ": " ++ p.snd))

/-- Display fields of the all-rows branch (computed from the first row). -/
def all_display_fields (rows : List Row) : List String :=
  display_fields (rowKeys (rows.headD [])) priority_fields_all housekeeping_all 5

/-- The numbered result lines of the all-rows branch: every row yields exactly
one line (with the fallback when no selected field has a value). -/
def results_list_all (rows : List Row) : List String :=
  let fields := all_display_fields rows
  rows.enum.map (fun p =>
    let parts := render_row_parts field_labels_full fields p.2
    if !parts.isEmpty then toString (p.1 + 1) ++ ". " ++ String.intercalate " | " parts
    else toString (p.1 + 1) ++ ". " ++ row_fallback field_labels_full p.2)

/-- Display fields of the sample branch (computed from the first row). -/
def sample_display_fields (rows : List Row) : List String :=
  display_fields (rowKeys (rows.headD [])) priority_fields_sample housekeeping_sample 4

/-- The numbered sample lines of the large-dataset branch: only the first 20
rows, and a row with no renderable part is skipped (no fallback here). -/
def sample_list (rows : List Row) : List String :=
  let fields := sample_display_fields rows
  (rows.take 20).enum.filterMap (fun p =>
    let parts := render_row_parts field_labels_sample fields p.2
    if !parts.isEmpty then
      some (toString (p.1 + 1) ++ ". " ++ String.intercalate " | " parts)
    else none)

/-- Display fields of the direct display branch. -/
def direct_display_fields (rows : List Row) : List String :=
  display_fields (rowKeys (rows.headD [])) priority_fields_direct housekeeping_all 5

/-- The numbered result lines of the direct display branch (rows with no
renderable part are skipped). -/
def results_list_direct (rows : List Row) : List String :=
  let fields := direct_display_fields rows
  rows.enum.filterMap (fun p =>
    let parts := render_row_parts field_labels_full fields p.2
    if !parts.isEmpty then
      some (toString (p.1 + 1) ++ ". " ++ String.intercalate " | " parts)
    else none)

/-- The fixed no-results message of `summarizer_node`. -/
def no_results_message : String := "No results found for your query."

/-- `summarizer_node`: size-tiered display policy.  In this embedding every
row is a dict, so the source's `isinstance(rows[0], dict)` guards always hold
(their fall-through path is unreachable); the `history_text` block of the
source is computed but never used and is therefore omitted.  Every branch
ends by triggering `update_memory`. -/
def summarizer_node (now : String) (st0 : AgentState) : AgentState :=
  let st := initialize_memory st0
  let query_type := st.query_type.getD "conversation"
  let rows := st.rows
  if (query_type == "list_all" || query_type == "ad_hoc_select") && !rows.isEmpty then
    if rows.length ≤ 100 then
      update_memory now { st with
        response := some ("Here are all " ++ toString rows.length ++ " entries:\n\n"
          ++ String.intercalate "\n" (results_list_all rows)) }
    else
      update_memory now { st with
        response := some ("Found " ++ toString rows.length
          ++ " entries in total.\n\nHere are the first 20:\n\n"
          ++ String.intercalate "\n" (sample_list rows)
          ++ "\n\n... and " ++ toString (rows.length - 20)
          ++ " more entries.\n\nWould you like me to show a specific range or filter these results?") }
  else
    if !rows.isEmpty then
      update_memory now { st with
        response := some ("Here are the results:\n\n"
          ++ String.intercalate "\n" (results_list_direct rows)) }
    else
      update_memory now { st with response := some no_results_message }

/-- The conditional edge selector of `build_agent_graph`. -/
def should_execute_sql (st : AgentState) : String :=
  if st.needs_sql then "SQL_PATH" else "CONVERSATION"

/-- One execution of the compiled pipeline graph on an input state:
ROUTER → CLASSIFY → (GENERATE_SQL → EXECUTE_SQL)? → SUMMARIZE, with the SQL
leg taken exactly when `should_execute_sql` yields `"SQL_PATH"`.  `cO` and
`gO` are the completion engine's outcomes for the classification and the
composition call of this turn; `db` is the data store. -/
def run_turn (cO gO : Except String String) (db : String → Except String (List Row))
    (now : String) (st0 : AgentState) : Except String AgentState :=
  let st1 := router_node st0
  match classify_query_node cO st1 with
  | Except.error e => Except.error e
  | Except.ok st2 =>
    if should_execute_sql st2 == "SQL_PATH" then
      match generate_sql_node gO st2 with
      | Except.error e => Except.error e
      | Except.ok st3 => Except.ok (summarizer_node now (execute_sql_node db st3))
    else
      Except.ok (summarizer_node now st2)

/-- The response body of the `/chatbot/query` route. -/
structure ChatbotResponse where
  answer : String
  generated_sql : Option String
  row_count : Nat
  query_type : Option String
deriving Repr, DecidableEq

/-- Outcome of one `/chatbot/query` request: a successful response body, or
the `HTTPException(500, ...)` raised by the route's catch-all handler. -/
inductive RouteResult where
  | success (resp : ChatbotResponse)
  | httpError (status : Nat) (detail : String)
deriving Repr, DecidableEq

/-- The `initial_state` dict built by `chat_query` for every request.  Note
that it contains **no** `session_memory` key: only the conversation
transcript is carried across turns by the route. -/
def route_initial_state (question : String) (hist : List Message)
    (request_id : Option Int) : AgentState :=
  { user_query := question
    request_id := request_id
    query_type := none
    generated_sql := none
    rows := []
    response := none
    conversation_history := hist
    session_context := some (default_session_context request_id)
    session_memory := none
    needs_sql := false
    is_clarification := false }

/-- `chat_query` for one session: invoke the graph on the per-request initial
state; on success append the user and assistant messages to the transcript
(capped at the last 20) and build the response body; an escaped exception
becomes an HTTP 500.  The final state's `session_memory` is discarded. -/
def chat_query (hist : List Message) (question : String) (request_id : Option Int)
    (cO gO : Except String String) (db : String → Except String (List Row))
    (now : String) : RouteResult × List Message :=
  match run_turn cO gO db now (route_initial_state question hist request_id) with
  | Except.error e =>
    (RouteResult.httpError 500 ("Error processing query: " ++ e), hist)
  | Except.ok fs =>
    let response_text := fs.response.getD "Sorry, I couldn't generate a response."
    let hist1 := hist ++
      [{ role := "user", content := question, query_type := fs.query_type },
       { role := "assistant", content := response_text, query_type := fs.query_type }]
    let hist2 := if hist1.length > 20 then lastN 20 hist1 else hist1
    (RouteResult.success
      { answer := response_text
        generated_sql := fs.generated_sql
        row_count := fs.rows.length
        query_type := fs.query_type }, hist2)

/-- The nodes of the compiled graph (`build_agent_graph`). -/
inductive GNode where
  | START | ROUTER | CLASSIFY | GENERATE_SQL | EXECUTE_SQL
  | FETCH_VERSIONS | ANALYZE_CHANGES | SUMMARIZE | FINISH
deriving Repr, DecidableEq

/-- The nodes registered via `graph.add_node` in `build_agent_graph`. -/
def registered_nodes : List GNode :=
  [GNode.ROUTER, GNode.CLASSIFY, GNode.GENERATE_SQL, GNode.EXECUTE_SQL,
   GNode.FETCH_VERSIONS, GNode.ANALYZE_CHANGES, GNode.SUMMARIZE]

/-- The edges added in `build_agent_graph` (the conditional edge out of
CLASSIFY contributes its two possible targets). -/
def graph_edges : List (GNode × GNode) :=
  [(GNode.START, GNode.ROUTER),
   (GNode.ROUTER, GNode.CLASSIFY),
   (GNode.CLASSIFY, GNode.GENERATE_SQL),
   (GNode.CLASSIFY, GNode.SUMMARIZE),
   (GNode.GENERATE_SQL, GNode.EXECUTE_SQL),
   (GNode.EXECUTE_SQL, GNode.SUMMARIZE),
   (GNode.SUMMARIZE, GNode.FINISH)]

/-- A node an execution of the compiled graph can visit: START, or the target
of an edge out of a visitable node. -/
inductive GReachable : GNode → Prop where
  | start : GReachable GNode.START
  | step {a b : GNode} : GReachable a → (a, b) ∈ graph_edges → GReachable b

/-! Projection lemmas for the state-threading functions. -/

theorem init_user_query (st : AgentState) :
    (initialize_memory st).user_query = st.user_query := by
  unfold initialize_memory; split <;> rfl

theorem init_query_type (st : AgentState) :
    (initialize_memory st).query_type = st.query_type := by
  unfold initialize_memory; split <;> rfl

theorem init_generated_sql (st : AgentState) :
    (initialize_memory st).generated_sql = st.generated_sql := by
  unfold initialize_memory; split <;> rfl

theorem init_rows (st : AgentState) : (initialize_memory st).rows = st.rows := by
  unfold initialize_memory; split <;> rfl

theorem init_response (st : AgentState) :
    (initialize_memory st).response = st.response := by
  unfold initialize_memory; split <;> rfl

theorem init_needs_sql (st : AgentState) :
    (initialize_memory st).needs_sql = st.needs_sql := by
  unfold initialize_memory; split <;> rfl

theorem init_session_context (st : AgentState) :
    (initialize_memory st).session_context = st.session_context := by
  unfold initialize_memory; split <;> rfl

theorem init_session_memory (st : AgentState) :
    (initialize_memory st).session_memory = some (st.session_memory.getD fresh_memory) := by
  unfold initialize_memory
  cases h : st.session_memory <;> simp [h]

theorem init_of_some {st : AgentState} {m : SessionMemory}
    (h : st.session_memory = some m) : initialize_memory st = st := by
  unfold initialize_memory; simp [h]

theorem router_node_needs_sql (st : AgentState) :
    (router_node st).needs_sql
      = !(is_pure_greeting st.user_query || is_meta_question st.user_query) := by
  simp [router_node, init_user_query]

theorem router_node_session_memory (st : AgentState) :
    (router_node st).session_memory = some (st.session_memory.getD fresh_memory) := by
  simp [router_node, init_session_memory]

theorem router_node_user_query (st : AgentState) :
    (router_node st).user_query = st.user_query := by
  simp [router_node, init_user_query]

theorem router_node_query_type (st : AgentState) :
    (router_node st).query_type = st.query_type := by
  simp [router_node, init_query_type]

theorem router_node_generated_sql (st : AgentState) :
    (router_node st).generated_sql = st.generated_sql := by
  simp [router_node, init_generated_sql]

theorem router_node_rows (st : AgentState) : (router_node st).rows = st.rows := by
  simp [router_node, init_rows]

theorem router_node_response (st : AgentState) :
    (router_node st).response = st.response := by
  simp [router_node, init_response]

theorem update_memory_response (now : String) (st : AgentState) :
    (update_memory now st).response = st.response := by
  simp [update_memory, init_response]

theorem update_memory_needs_sql (now : String) (st : AgentState) :
    (update_memory now st).needs_sql = st.needs_sql := by
  simp [update_memory, init_needs_sql]

theorem update_memory_session_memory_of_some {st : AgentState} {m : SessionMemory}
    (now : String) (h : st.session_memory = some m) :
    (update_memory now st).session_memory
      = some (memory_after_update m st.user_query st.generated_sql st.rows
          (st.response.getD "") st.query_type now) := by
  unfold update_memory
  rw [init_of_some h]
  simp [h]

theorem memory_after_update_turn_count (m : SessionMemory) (q : String)
    (sql : Option String) (rows : List Row) (resp : String) (qt : Option String)
    (now : String) :
    (memory_after_update m q sql rows resp qt now).turn_count = m.turn_count + 1 := rfl

theorem memory_after_update_query_history (m : SessionMemory) (q : String)
    (sql : Option String) (rows : List Row) (resp : String) (qt : Option String)
    (now : String) :
    (memory_after_update m q sql rows resp qt now).query_history
      = trim_history (m.query_history ++ [new_turn_record m q sql rows resp now]) := rfl

theorem memory_after_update_cache_no_sql {sql : Option String}
    (m : SessionMemory) (q : String) (rows : List Row) (resp : String)
    (qt : Option String) (now : String) (h : sqlTruthy sql = false) :
    (memory_after_update m q sql rows resp qt now).result_cache = m.result_cache := by
  simp [memory_after_update, h]

theorem execute_sql_node_session_memory (db : String → Except String (List Row))
    (st : AgentState) :
    (execute_sql_node db st).session_memory = st.session_memory := by
  unfold execute_sql_node
  split
  · rfl
  · split <;> rfl

theorem execute_sql_node_needs_sql (db : String → Except String (List Row))
    (st : AgentState) :
    (execute_sql_node db st).needs_sql = st.needs_sql := by
  unfold execute_sql_node
  split
  · rfl
  · split <;> rfl

theorem classify_of_no_sql (o : Except String String) {st : AgentState}
    (h : st.needs_sql = false) :
    classify_query_node o st = Except.ok { st with query_type := some "conversation" } := by
  simp [classify_query_node, h]

theorem classify_of_error {e : String} {st : AgentState} (h : st.needs_sql = true) :
    classify_query_node (Except.error e) st = Except.error e := by
  simp [classify_query_node, h]

theorem classify_preserves_memory {o : Except String String} {st st2 : AgentState}
    {m : SessionMemory} (h : classify_query_node o st = Except.ok st2)
    (hm : st.session_memory = some m) : st2.session_memory = some m := by
  unfold classify_query_node at h
  split at h
  · cases h; exact hm
  · cases o with
    | error e => simp at h
    | ok txt =>
      simp only [Except.ok.injEq] at h
      subst h
      simp [init_session_memory, hm]

theorem generate_preserves_memory {o : Except String String} {st st2 : AgentState}
    {m : SessionMemory} (h : generate_sql_node o st = Except.ok st2)
    (hm : st.session_memory = some m) : st2.session_memory = some m := by
  unfold generate_sql_node at h
  split at h
  · cases h; exact hm
  · cases o with
    | error e => simp at h
    | ok txt =>
      simp only [Except.ok.injEq] at h
      subst h
      simp [init_session_memory, hm]

theorem update_memory_turn_count {st : AgentState} {m : SessionMemory} (now : String)
    (h : st.session_memory = some m) :
    (update_memory now st).session_memory.map (fun mm => mm.turn_count)
      = some (m.turn_count + 1) := by
  rw [update_memory_session_memory_of_some now h]
  simp [memory_after_update_turn_count]

theorem summarizer_turn_count {st : AgentState} {m : SessionMemory} (now : String)
    (h : st.session_memory = some m) :
    (summarizer_node now st).session_memory.map (fun mm => mm.turn_count)
      = some (m.turn_count + 1) := by
  unfold summarizer_node
  rw [init_of_some h]
  dsimp only
  split
  · split
    · exact update_memory_turn_count now h
    · exact update_memory_turn_count now h
  · split
    · exact update_memory_turn_count now h
    · exact update_memory_turn_count now h

theorem summarizer_of_rows_nil {st : AgentState} (now : String) (h : st.rows = []) :
    summarizer_node now st
      = update_memory now { initialize_memory st with response := some no_results_message } := by
  unfold summarizer_node
  simp [init_rows, h]

theorem trim_history_eq_drop (h : List QueryRecord) :
    trim_history h = h.drop (h.length - 10) := by
  unfold trim_history lastN
  split
  · rfl
  · next hle =>
    have h0 : h.length - 10 = 0 := by omega
    simp [h0]

theorem trim_history_ne_nil {h : List QueryRecord} (hne : h ≠ []) :
    trim_history h ≠ [] := by
  rw [trim_history_eq_drop]
  have hpos : 0 < h.length := List.length_pos.mpr hne
  have : 0 < (h.drop (h.length - 10)).length := by
    rw [List.length_drop]; omega
  exact List.ne_nil_of_length_pos this

/-- C4: after any memory update the query history has at most 10 records; the
updated history is a suffix (drop of a prefix) of the old history with the new
record appended — so the records evicted are exactly the oldest ones and the
surviving records keep their relative order — and when the history held
exactly 10 records the single evicted record is the oldest one. -/
theorem history_cap_fifo (st : AgentState) (now : String) (m m2 : SessionMemory)
    (hm : st.session_memory = some m)
    (hm2 : (update_memory now st).session_memory = some m2) :
    m2.query_history.length ≤ 10 ∧
    m2.query_history = (m.query_history ++ [new_turn_record m st.user_query st.generated_sql
        st.rows (st.response.getD "") now]).drop ((m.query_history.length + 1) - 10) ∧
    (m.query_history.length = 10 →
      m2.query_history = m.query_history.drop 1 ++ [new_turn_record m st.user_query
        st.generated_sql st.rows (st.response.getD "") now]) := by
  rw [update_memory_session_memory_of_some now hm] at hm2
  injection hm2 with h2
  subst h2
  rw [memory_after_update_query_history, trim_history_eq_drop]
  have hlen : (m.query_history ++ [new_turn_record m st.user_query st.generated_sql
      st.rows (st.response.getD "") now]).length = m.query_history.length + 1 := by
    simp
  refine ⟨?_, ?_, ?_⟩
  · rw [List.length_drop, hlen]; omega
  · rw [hlen]
  · intro h10
    rw [hlen, h10]
    have h1 : (10 + 1 : Nat) - 10 = 1 := by omega
    rw [h1, List.drop_append_of_le_length (by omega)]

def c4_state : AgentState :=
  { route_initial_state "show hcp entries" [] none with
    session_memory := some fresh_memory }

def c4_m2 : SessionMemory :=
  (update_memory "t4" c4_state).session_memory.getD fresh_memory

theorem history_cap_fifo_witness :
    c4_m2.query_history.length ≤ 10 ∧
    c4_m2.query_history = (fresh_memory.query_history
      ++ [new_turn_record fresh_memory c4_state.user_query c4_state.generated_sql
            c4_state.rows (c4_state.response.getD "") "t4"]).drop
        ((fresh_memory.query_history.length + 1) - 10) :=
  ⟨(history_cap_fifo c4_state "t4" fresh_memory c4_m2 rfl rfl).1,
   (history_cap_fifo c4_state "t4" fresh_memory c4_m2 rfl rfl).2.1⟩

theorem memory_after_update_conversation_context (m : SessionMemory) (q : String)
    (sql : Option String) (rows : List Row) (resp : String) (qt : Option String)
    (now : String) :
    (memory_after_update m q sql rows resp qt now).conversation_context
      = (if (m.turn_count + 1) % 3 == 0 then
          summarize_conversation_context (trim_history (m.query_history
            ++ [new_turn_record m q sql rows resp now]))
        else m.conversation_context) := rfl

/-- C8: each memory update increments the turn counter by 1; the rolling
summary is regenerated exactly when the new turn count is a multiple of 3, in
which case it becomes the newline-joined list of
`Turn <n>: Asked about '<first 60 chars>...' → <rowCount> results` lines over
the 5 most recent history records; on every other turn it is left unchanged. -/
theorem rolling_summary_period (st : AgentState) (now : String) (m m2 : SessionMemory)
    (hm : st.session_memory = some m)
    (hm2 : (update_memory now st).session_memory = some m2) :
    m2.turn_count = m.turn_count + 1 ∧
    (m2.turn_count % 3 ≠ 0 → m2.conversation_context = m.conversation_context) ∧
    (m2.turn_count % 3 = 0 → m2.conversation_context
      = String.intercalate "\n" ((lastN 5 m2.query_history).map (fun r =>
          "Turn " ++ toString r.turn ++ ": Asked about '" ++ r.query.take 60
            ++ "...' → " ++ toString r.row_count ++ " results"))) := by
  rw [update_memory_session_memory_of_some now hm] at hm2
  injection hm2 with h2
  subst h2
  refine ⟨rfl, ?_, ?_⟩
  · intro hne
    rw [memory_after_update_turn_count] at hne
    rw [memory_after_update_conversation_context]
    simp [hne]
  · intro hz
    rw [memory_after_update_turn_count] at hz
    rw [memory_after_update_conversation_context, memory_after_update_query_history]
    have hne : trim_history (m.query_history ++ [new_turn_record m st.user_query
        st.generated_sql st.rows (st.response.getD "") now]) ≠ [] :=
      trim_history_ne_nil (by simp)
    simp only [hz, beq_self_eq_true, if_true]
    unfold summarize_conversation_context summary_line
    simp [List.isEmpty_iff, hne]

def c8_state : AgentState :=
  { route_initial_state "show target list entries" [] none with
    session_memory := some { fresh_memory with turn_count := 2 } }

def c8_m2 : SessionMemory :=
  (update_memory "t8" c8_state).session_memory.getD fresh_memory

theorem rolling_summary_period_witness :
    c8_m2.turn_count = 3 ∧
    c8_m2.conversation_context
      = String.intercalate "\n" ((lastN 5 c8_m2.query_history).map (fun r =>
          "Turn " ++ toString r.turn ++ ": Asked about '" ++ r.query.take 60
            ++ "...' → " ++ toString r.row_count ++ " results")) :=
  ⟨(rolling_summary_period c8_state "t8" { fresh_memory with turn_count := 2 } c8_m2
      rfl rfl).1,
   (rolling_summary_period c8_state "t8" { fresh_memory with turn_count := 2 } c8_m2
      rfl rfl).2.2 (by decide)⟩

/-- C6: whenever query execution yielded zero rows (which includes every turn
where no query was generated), the answer text produced by the response
composer is the fixed no-results message, verbatim. -/
theorem no_results_verbatim (st : AgentState) (now : String) (h : st.rows = []) :
    (summarizer_node now st).response = some "No results found for your query." := by
  rw [summarizer_of_rows_nil now h, update_memory_response]
  rfl

def c6_state : AgentState :=
  { route_initial_state "how many hcps are in tier 9" [] none with
    query_type := some "list_all" }

theorem no_results_verbatim_witness :
    (summarizer_node "t6" c6_state).response = some "No results found for your query." :=
  no_results_verbatim c6_state "t6" rfl

def c3_bad_state : AgentState :=
  { route_initial_state "remove everything" [] none with
    needs_sql := true
    generated_sql := some "DROP TABLE target_list_entries; SELECT 1" }

/-- C3 counterexample: a composed query whose text contains a
semicolon-separated second statement and whose leading keyword is not SELECT
is **not** rejected by the executor — it is dispatched verbatim to the data
store (witnessed by a store that echoes the statement it received). -/
theorem invalid_sql_dispatched :
    dispatchedQuery c3_bad_state = some "DROP TABLE target_list_entries; SELECT 1" ∧
    (execute_sql_node (fun s => Except.ok [[("statement_received", s)]]) c3_bad_state).rows
      = [[("statement_received", "DROP TABLE target_list_entries; SELECT 1")]] :=
  ⟨rfl, rfl⟩

/-- C3 (amended): the executor performs no structural inspection of the query
text.  It short-circuits (zero rows, data store never consulted) exactly when
no SQL is needed or the query text is empty/absent; any other text — valid or
not — is dispatched unchanged and its rows (or an empty list on a store
error) become the turn's rows. -/
theorem executor_dispatch_policy (db db2 : String → Except String (List Row))
    (st : AgentState) :
    (∀ s, st.needs_sql = true → st.generated_sql = some s → s ≠ "" →
      dispatchedQuery st = some s ∧
      (execute_sql_node db st).rows
        = (match db s with | Except.ok r => r | Except.error _ => [])) ∧
    (dispatchedQuery st = none →
      (execute_sql_node db st).rows = [] ∧ execute_sql_node db st = execute_sql_node db2 st) := by
  constructor
  · intro s hn hs hne
    have hd : dispatchedQuery st = some s := by
      simp [dispatchedQuery, hn, hs, sqlTruthy, hne]
    refine ⟨hd, ?_⟩
    unfold execute_sql_node
    rw [hd]
    dsimp only
    cases hdb : db s <;> simp [hdb]
  · intro hd
    have hall : ∀ d : String → Except String (List Row),
        execute_sql_node d st = { st with rows := [] } := by
      intro d
      unfold execute_sql_node
      rw [hd]
    rw [hall db, hall db2]
    exact ⟨rfl, rfl⟩

def c3_good_state : AgentState :=
  { route_initial_state "show hcp" [] none with
    needs_sql := true
    generated_sql := some "SELECT * FROM hcp" }

def c3_db : String → Except String (List Row) :=
  fun _ => Except.ok [[("hcp_name", "Dr. B")]]

theorem executor_dispatch_policy_witness :
    dispatchedQuery c3_good_state = some "SELECT * FROM hcp" ∧
    (execute_sql_node c3_db c3_good_state).rows = [[("hcp_name", "Dr. B")]] :=
  ⟨((executor_dispatch_policy c3_db c3_db c3_good_state).1 "SELECT * FROM hcp"
      rfl rfl (by decide)).1,
   ((executor_dispatch_policy c3_db c3_db c3_good_state).1 "SELECT * FROM hcp"
      rfl rfl (by decide)).2⟩

/-- C10: FETCH_VERSIONS and ANALYZE_CHANGES are registered in the compiled
graph but no edge targets them, so no execution of the graph can visit them —
their node functions are never invoked on any turn. -/
theorem dead_graph_nodes :
    (GNode.FETCH_VERSIONS ∈ registered_nodes ∧ GNode.ANALYZE_CHANGES ∈ registered_nodes) ∧
    ∀ n, GReachable n → n ≠ GNode.FETCH_VERSIONS ∧ n ≠ GNode.ANALYZE_CHANGES := by
  refine ⟨⟨by decide, by decide⟩, ?_⟩
  intro n hn
  induction hn with
  | start => exact ⟨by decide, by decide⟩
  | step ha he ih =>
    simp only [graph_edges, List.mem_cons, List.not_mem_nil, or_false,
      Prod.mk.injEq] at he
    rcases he with ⟨_, rfl⟩ | ⟨_, rfl⟩ | ⟨_, rfl⟩ | ⟨_, rfl⟩ | ⟨_, rfl⟩ | ⟨_, rfl⟩ | ⟨_, rfl⟩ <;>
      exact ⟨by decide, by decide⟩

theorem dead_graph_nodes_witness :
    GNode.SUMMARIZE ≠ GNode.FETCH_VERSIONS ∧ GNode.SUMMARIZE ≠ GNode.ANALYZE_CHANGES := by
  have h1 : GReachable GNode.ROUTER := GReachable.step GReachable.start (by decide)
  have h2 : GReachable GNode.CLASSIFY := GReachable.step h1 (by decide)
  have h3 : GReachable GNode.SUMMARIZE := GReachable.step h2 (by decide)
  exact dead_graph_nodes.2 GNode.SUMMARIZE h3

theorem summarizer_needs_sql (now : String) (st : AgentState) :
    (summarizer_node now st).needs_sql = st.needs_sql := by
  unfold summarizer_node
  dsimp only
  split
  · split <;> rw [update_memory_needs_sql] <;> exact init_needs_sql st
  · split <;> rw [update_memory_needs_sql] <;> exact init_needs_sql st

theorem summarizer_session_memory {st : AgentState} {m : SessionMemory} (now : String)
    (h : st.session_memory = some m) :
    ∃ resp, (summarizer_node now st).session_memory
      = some (memory_after_update m st.user_query st.generated_sql st.rows resp
          st.query_type now) := by
  unfold summarizer_node
  rw [init_of_some h]
  dsimp only
  split
  · split
    · exact ⟨_, update_memory_session_memory_of_some now h⟩
    · exact ⟨_, update_memory_session_memory_of_some now h⟩
  · split
    · exact ⟨_, update_memory_session_memory_of_some now h⟩
    · exact ⟨_, update_memory_session_memory_of_some now h⟩

/-- C2 counterexample: when the completion engine errors during
classification, the error is not caught anywhere in the pipeline — the whole
turn evaluates to that error, and the route converts it into an HTTP 500; no
`query_type` default is applied and no answer text is produced. -/
theorem classification_error_escapes :
    (run_turn (Except.error "engine timeout") (Except.ok "") (fun _ => Except.ok [])
        "t2c" (route_initial_state "show hcp" [] none))
      = Except.error "engine timeout" ∧
    chat_query [] "show hcp" none (Except.error "engine timeout") (Except.ok "")
        (fun _ => Except.ok []) "t2c"
      = (RouteResult.httpError 500 "Error processing query: engine timeout", []) :=
  ⟨rfl, rfl⟩

/-- C2 (amended): for every utterance that needs data (not a pure greeting or
meta question), a completion-engine error during classification propagates
out of the turn entry point: the route answers with an HTTP 500 carrying the
error text, instead of defaulting the category and producing an answer. -/
theorem classification_error_http500 (e : String) (gO : Except String String)
    (db : String → Except String (List Row)) (now q : String) (hist : List Message)
    (rid : Option Int)
    (hg : is_pure_greeting q = false) (hm : is_meta_question q = false) :
    chat_query hist q rid (Except.error e) gO db now
      = (RouteResult.httpError 500 ("Error processing query: " ++ e), hist) := by
  have hr : (router_node (route_initial_state q hist rid)).needs_sql = true := by
    rw [router_node_needs_sql]
    simp [route_initial_state, hg, hm]
  simp only [chat_query, run_turn]
  rw [classify_of_error hr]

theorem classification_error_http500_witness :
    chat_query [] "show all target list entries" none (Except.error "quota exceeded")
        (Except.ok "") (fun _ => Except.ok []) "t2w"
      = (RouteResult.httpError 500 "Error processing query: quota exceeded", []) :=
  classification_error_http500 "quota exceeded" (Except.ok "") (fun _ => Except.ok [])
    "t2w" "show all target list entries" [] none (by decide) (by decide)

theorem run_turn_no_sql (cO gO : Except String String)
    (db : String → Except String (List Row)) (now : String) (st0 : AgentState)
    (hr : (router_node st0).needs_sql = false) :
    run_turn cO gO db now st0
      = Except.ok (summarizer_node now
          { router_node st0 with query_type := some "conversation" }) := by
  have hcl := classify_of_no_sql cO hr
  have hse : should_execute_sql ({ router_node st0 with
      query_type := some "conversation" } : AgentState) = "CONVERSATION" := by
    unfold should_execute_sql
    rw [show ({ router_node st0 with query_type := some "conversation" } : AgentState).needs_sql
      = (router_node st0).needs_sql from rfl, hr]
    rfl
  simp only [run_turn, hcl, hse]
  rfl

/-- C7: an utterance that, trimmed and lower-cased, is one of the fixed pure
greetings makes the router decide that no SQL is needed, and the completed
turn leaves the session's result cache empty — the turn adds no entry. -/
theorem greeting_no_cache (cO gO : Except String String)
    (db : String → Except String (List Row)) (now q : String) (hist : List Message)
    (rid : Option Int) (st2 : AgentState)
    (hg : is_pure_greeting q = true)
    (h : run_turn cO gO db now (route_initial_state q hist rid) = Except.ok st2) :
    st2.needs_sql = false ∧
    st2.session_memory.map (fun m => m.result_cache) = some [] := by
  have hr : (router_node (route_initial_state q hist rid)).needs_sql = false := by
    rw [router_node_needs_sql]
    simp [route_initial_state, hg]
  rw [run_turn_no_sql cO gO db now _ hr] at h
  injection h with h2
  subst h2
  have hmem : ({ router_node (route_initial_state q hist rid) with
      query_type := some "conversation" } : AgentState).session_memory
      = some fresh_memory := by
    rw [show ({ router_node (route_initial_state q hist rid) with
        query_type := some "conversation" } : AgentState).session_memory
      = (router_node (route_initial_state q hist rid)).session_memory from rfl,
      router_node_session_memory]
    rfl
  constructor
  · rw [summarizer_needs_sql]
    exact hr
  · obtain ⟨resp, hsm⟩ := summarizer_session_memory now hmem
    have hsql : ({ router_node (route_initial_state q hist rid) with
        query_type := some "conversation" } : AgentState).generated_sql = none := by
      rw [show ({ router_node (route_initial_state q hist rid) with
          query_type := some "conversation" } : AgentState).generated_sql
        = (router_node (route_initial_state q hist rid)).generated_sql from rfl,
        router_node_generated_sql]
      rfl
    rw [hsm]
    simp only [Option.map_some']
    rw [memory_after_update_cache_no_sql _ _ _ _ _ _ (by rw [hsql]; rfl)]
    rfl

def c7_result : Except String AgentState :=
  run_turn (Except.ok "") (Except.ok "") (fun _ => Except.ok []) "t7"
    (route_initial_state "hi" [] none)

def c7_state : AgentState :=
  match c7_result with
  | Except.ok s => s
  | Except.error _ => route_initial_state "" [] none

theorem greeting_no_cache_witness :
    c7_state.needs_sql = false ∧
    c7_state.session_memory.map (fun m => m.result_cache) = some [] :=
  greeting_no_cache (Except.ok "") (Except.ok "") (fun _ => Except.ok []) "t7" "hi"
    [] none c7_state (by decide) rfl

/-- C9: a turn routed as a pure greeting or meta question reaches the
response composer with no rows, so the answer returned is the generic
no-results message — the pipeline has no greeting-specific reply. -/
theorem greeting_generic_reply (cO gO : Except String String)
    (db : String → Except String (List Row)) (now q : String) (hist : List Message)
    (rid : Option Int) (st2 : AgentState)
    (hg : is_pure_greeting q = true ∨ is_meta_question q = true)
    (h : run_turn cO gO db now (route_initial_state q hist rid) = Except.ok st2) :
    st2.response = some "No results found for your query." := by
  have hr : (router_node (route_initial_state q hist rid)).needs_sql = false := by
    rw [router_node_needs_sql]
    rcases hg with hg | hg <;> simp [route_initial_state, hg]
  rw [run_turn_no_sql cO gO db now _ hr] at h
  injection h with h2
  subst h2
  have hrows : ({ router_node (route_initial_state q hist rid) with
      query_type := some "conversation" } : AgentState).rows = [] := by
    rw [show ({ router_node (route_initial_state q hist rid) with
        query_type := some "conversation" } : AgentState).rows
      = (router_node (route_initial_state q hist rid)).rows from rfl,
      router_node_rows]
    rfl
  rw [summarizer_of_rows_nil now hrows, update_memory_response]
  rfl

def c9_result : Except String AgentState :=
  run_turn (Except.ok "") (Except.ok "") (fun _ => Except.ok []) "t9"
    (route_initial_state "thanks" [] none)

def c9_state : AgentState :=
  match c9_result with
  | Except.ok s => s
  | Except.error _ => route_initial_state "" [] none

theorem greeting_generic_reply_witness :
    c9_state.response = some "No results found for your query." :=
  greeting_generic_reply (Except.ok "") (Except.ok "") (fun _ => Except.ok []) "t9"
    "thanks" [] none c9_state (Or.inl (by decide)) rfl

theorem route_turn_turn_count (cO gO : Except String String)
    (db : String → Except String (List Row)) (now q : String) (hist : List Message)
    (rid : Option Int) (st2 : AgentState)
    (h : run_turn cO gO db now (route_initial_state q hist rid) = Except.ok st2) :
    st2.session_memory.map (fun m => m.turn_count) = some 1 := by
  have hmem : (router_node (route_initial_state q hist rid)).session_memory
      = some fresh_memory := by
    rw [router_node_session_memory]; rfl
  simp only [run_turn] at h
  cases hc : classify_query_node cO (router_node (route_initial_state q hist rid)) with
  | error e =>
    rw [hc] at h
    exact absurd h (by simp)
  | ok stc =>
    rw [hc] at h
    have hcm : stc.session_memory = some fresh_memory := classify_preserves_memory hc hmem
    have h2 : (if should_execute_sql stc == "SQL_PATH" then
          match generate_sql_node gO stc with
          | Except.error e => Except.error e
          | Except.ok st3 => Except.ok (summarizer_node now (execute_sql_node db st3))
        else Except.ok (summarizer_node now stc)) = Except.ok st2 := h
    cases hb : should_execute_sql stc == "SQL_PATH" with
    | false =>
      rw [hb] at h2
      simp only [Bool.false_eq_true, if_false] at h2
      injection h2 with h3
      subst h3
      exact summarizer_turn_count now hcm
    | true =>
      rw [hb] at h2
      simp only [if_true] at h2
      cases hg2 : generate_sql_node gO stc with
      | error e3 =>
        rw [hg2] at h2
        exact absurd h2 (by simp)
      | ok st3 =>
        rw [hg2] at h2
        have h4 : Except.ok (summarizer_node now (execute_sql_node db st3))
            = Except.ok st2 := h2
        injection h4 with h5
        subst h5
        have h3m : st3.session_memory = some fresh_memory :=
          generate_preserves_memory hg2 hcm
        have h4m : (execute_sql_node db st3).session_memory = some fresh_memory := by
          rw [execute_sql_node_session_memory]; exact h3m
        exact summarizer_turn_count now h4m

def c1_db : String → Except String (List Row) :=
  fun _ => Except.ok [[("hcp_name", "Dr. A"), ("tier", "1")]]

/-- The route outcome and updated transcript of turn 1 of a two-turn session. -/
def c1_step1 : RouteResult × List Message :=
  chat_query [] "show hcp entries" none (Except.ok "list_all")
    (Except.ok "SELECT * FROM hcp") c1_db "t1"

/-- C1 is violated by the route: `chat_query` builds every request's initial
state without a `session_memory` key and discards the final state's memory,
so the memory is recreated from scratch on every turn.  Concretely, in a
two-turn session (the second turn starting from the transcript the route kept
after the first), the turn counter is 1 after turn 1 **and still 1 after
turn 2**, where the claim requires 2. -/
theorem turn_count_resets_each_request :
    (route_initial_state "show hcp entries" c1_step1.2 none).session_memory = none ∧
    ((run_turn (Except.ok "list_all") (Except.ok "SELECT * FROM hcp") c1_db "t1"
        (route_initial_state "show hcp entries" [] none)).toOption.bind
      (fun st => st.session_memory.map (fun m => m.turn_count))) = some 1 ∧
    ((run_turn (Except.ok "list_all") (Except.ok "SELECT * FROM hcp") c1_db "t2"
        (route_initial_state "show hcp entries" c1_step1.2 none)).toOption.bind
      (fun st => st.session_memory.map (fun m => m.turn_count))) = some 1 :=
  ⟨rfl, rfl, rfl⟩

theorem length_filterMap_of_ne_none {α β : Type} (f : α → Option β) :
    ∀ l : List α, (∀ a ∈ l, f a ≠ none) → (l.filterMap f).length = l.length := by
  intro l h
  induction l with
  | nil => rfl
  | cons a t ih =>
    have ha := h a (by simp)
    cases hfa : f a with
    | none => exact absurd hfa ha
    | some b =>
      rw [List.filterMap_cons, hfa]
      simp only [List.length_cons]
      rw [ih (fun x hx => h x (by simp [hx]))]

theorem snd_mem_of_mem_enumFrom {α : Type} :
    ∀ (l : List α) (n : Nat) (p : Nat × α), p ∈ l.enumFrom n → p.2 ∈ l := by
  intro l
  induction l with
  | nil => intro n p h; simp [List.enumFrom] at h
  | cons a t ih =>
    intro n p h
    simp only [List.enumFrom, List.mem_cons] at h
    rcases h with h | h
    · simp [h]
    · exact List.mem_cons_of_mem _ (ih _ _ h)

theorem results_list_all_length (rows : List Row) :
    (results_list_all rows).length = rows.length := by
  unfold results_list_all
  dsimp only
  rw [List.length_map, List.enum_length]

theorem sample_list_length (rows : List Row) (hlen : 20 ≤ rows.length)
    (h : ∀ r ∈ rows.take 20,
      render_row_parts field_labels_sample (sample_display_fields rows) r ≠ []) :
    (sample_list rows).length = 20 := by
  unfold sample_list
  dsimp only
  rw [length_filterMap_of_ne_none]
  · rw [List.enum_length, List.length_take]
    omega
  · intro p hp
    have hr : p.2 ∈ rows.take 20 := snd_mem_of_mem_enumFrom _ 0 p hp
    have hparts := h p.2 hr
    have hie : (render_row_parts field_labels_sample (sample_display_fields rows) p.2).isEmpty
        = false := by
      cases hc : render_row_parts field_labels_sample (sample_display_fields rows) p.2 with
      | nil => exact absurd hc hparts
      | cons a t => rfl
    simp [hie]

theorem summarizer_list_branch (now : String) (st : AgentState)
    (hqt : st.query_type = some "list_all" ∨ st.query_type = some "ad_hoc_select")
    (hne : st.rows ≠ []) :
    summarizer_node now st =
      (if st.rows.length ≤ 100 then
        update_memory now { initialize_memory st with
          response := some ("Here are all " ++ toString st.rows.length ++ " entries:\n\n"
            ++ String.intercalate "\n" (results_list_all st.rows)) }
      else
        update_memory now { initialize_memory st with
          response := some ("Found " ++ toString st.rows.length
            ++ " entries in total.\n\nHere are the first 20:\n\n"
            ++ String.intercalate "\n" (sample_list st.rows)
            ++ "\n\n... and " ++ toString (st.rows.length - 20)
            ++ " more entries.\n\nWould you like me to show a specific range or filter these results?") }) := by
  have hie : st.rows.isEmpty = false := by
    cases h2 : st.rows with
    | nil => exact absurd h2 hne
    | cons a t => rfl
  unfold summarizer_node
  dsimp only
  have hcond : (((initialize_memory st).query_type.getD "conversation" == "list_all"
      || (initialize_memory st).query_type.getD "conversation" == "ad_hoc_select")
      && !(initialize_memory st).rows.isEmpty) = true := by
    rw [init_query_type, init_rows]
    rcases hqt with h | h <;> rw [h] <;> simp [hie]
  rw [hcond, if_pos (rfl : (true : Bool) = true), init_rows]

/-- C5 (amended): for a turn classified as `list_all` or `ad_hoc_select`, a
result set of exactly 100 rows is rendered in full — one line per row, 100
lines, under the plain all-entries header with no truncation notice — while a
result set of 101 rows renders the first 20 rows in returned order plus a
truncation notice stating the total of 101 and the 81 remaining entries,
**except** that the sample branch has no per-row fallback: a row among the
first 20 whose selected display fields are all empty is silently skipped, so
exactly 20 rows are rendered only when each of the first 20 rows has a
non-empty display field (the hypothesis below; see the counterexample for the
skipping). -/
theorem display_tier_policy (st100 st101 : AgentState) (now : String)
    (h1 : st100.query_type = some "list_all" ∨ st100.query_type = some "ad_hoc_select")
    (h2 : st100.rows.length = 100)
    (h3 : st101.query_type = some "list_all" ∨ st101.query_type = some "ad_hoc_select")
    (h4 : st101.rows.length = 101)
    (h5 : ∀ r ∈ st101.rows.take 20,
      render_row_parts field_labels_sample (sample_display_fields st101.rows) r ≠ []) :
    ((summarizer_node now st100).response
        = some ("Here are all 100 entries:\n\n"
            ++ String.intercalate "\n" (results_list_all st100.rows)) ∧
      (results_list_all st100.rows).length = 100) ∧
    ((summarizer_node now st101).response
        = some ("Found 101 entries in total.\n\nHere are the first 20:\n\n"
            ++ String.intercalate "\n" (sample_list st101.rows)
            ++ "\n\n... and " ++ "81"
            ++ " more entries.\n\nWould you like me to show a specific range or filter these results?") ∧
      (sample_list st101.rows).length = 20) := by
  have hne100 : st100.rows ≠ [] := by
    intro hx; rw [hx] at h2; simp at h2
  have hne101 : st101.rows ≠ [] := by
    intro hx; rw [hx] at h4; simp at h4
  refine ⟨⟨?_, ?_⟩, ⟨?_, ?_⟩⟩
  · rw [summarizer_list_branch now st100 h1 hne100,
      if_pos (by rw [h2] : st100.rows.length ≤ 100), update_memory_response]
    rw [show ({ initialize_memory st100 with
        response := some ("Here are all " ++ toString st100.rows.length ++ " entries:\n\n"
          ++ String.intercalate "\n" (results_list_all st100.rows)) } : AgentState).response
      = some ("Here are all " ++ toString st100.rows.length ++ " entries:\n\n"
          ++ String.intercalate "\n" (results_list_all st100.rows)) from rfl, h2]
    rfl
  · rw [results_list_all_length, h2]
  · rw [summarizer_list_branch now st101 h3 hne101,
      if_neg (by rw [h4]; decide : ¬ st101.rows.length ≤ 100), update_memory_response]
    rw [show ({ initialize_memory st101 with
        response := some ("Found " ++ toString st101.rows.length
          ++ " entries in total.\n\nHere are the first 20:\n\n"
          ++ String.intercalate "\n" (sample_list st101.rows)
          ++ "\n\n... and " ++ toString (st101.rows.length - 20)
          ++ " more entries.\n\nWould you like me to show a specific range or filter these results?") } : AgentState).response
      = some ("Found " ++ toString st101.rows.length
          ++ " entries in total.\n\nHere are the first 20:\n\n"
          ++ String.intercalate "\n" (sample_list st101.rows)
          ++ "\n\n... and " ++ toString (st101.rows.length - 20)
          ++ " more entries.\n\nWould you like me to show a specific range or filter these results?") from rfl, h4]
    rfl
  · exact sample_list_length st101.rows (by omega) h5

def c5_row : Row := [("name", "Dr. Example")]

def c5_state_100 : AgentState :=
  { route_initial_state "list all hcp entries" [] none with
    query_type := some "list_all"
    rows := List.replicate 100 c5_row }

def c5_state_101 : AgentState :=
  { route_initial_state "list all hcp entries" [] none with
    query_type := some "list_all"
    rows := List.replicate 101 c5_row }

theorem display_tier_policy_witness :
    (results_list_all c5_state_100.rows).length = 100 ∧
    (sample_list c5_state_101.rows).length = 20 :=
  ⟨((display_tier_policy c5_state_100 c5_state_101 "t5" (Or.inl rfl) (by decide)
      (Or.inl rfl) (by decide) (by decide)).1).2,
   ((display_tier_policy c5_state_100 c5_state_101 "t5" (Or.inl rfl) (by decide)
      (Or.inl rfl) (by decide) (by decide)).2).2⟩

/-- 101 rows whose first row has only an empty display value; the remaining
100 rows render normally. -/
def c5_gap_rows : List Row := [("name", "")] :: List.replicate 100 [("name", "X")]

def c5_gap_state : AgentState :=
  { route_initial_state "list all hcp entries" [] none with
    query_type := some "list_all"
    rows := c5_gap_rows }

/-- C5 counterexample: for this 101-row result set the claim's "exactly the
first 20 rows are rendered" fails — the sample branch skips a row with no
non-empty selected field (it has no fallback, unlike the all-rows branch), so
the response's sample block has only 19 lines and the first rendered line is
numbered "2.": row 1 was dropped, leaving a numbering gap.  The truncation
notice itself still reports 101 total and 81 remaining. -/
theorem truncation_skips_empty_row :
    c5_gap_state.rows.length = 101 ∧
    (summarizer_node "t5g" c5_gap_state).response
      = some ("Found 101 entries in total.\n\nHere are the first 20:\n\n"
          ++ String.intercalate "\n" (sample_list c5_gap_state.rows)
          ++ "\n\n... and " ++ "81"
          ++ " more entries.\n\nWould you like me to show a specific range or filter these results?") ∧
    (sample_list c5_gap_state.rows).length = 19 ∧
    (sample_list c5_gap_state.rows).headD "" = "2. Name: X" :=
  ⟨rfl, rfl, rfl, rfl⟩
